import Mathlib

/-!
Verification of the DHT routing-table maintenance core of the `tox` repository
(`src/toxcore/dht/dht_node.rs`, `src/toxcore/dht/dht_friend.rs`) and of the TCP
codec buffer discipline (`src/toxcore/tcp/codec.rs`), as a shallow embedding.

Time is modelled by a discrete monotonic clock: `Instant` becomes `Nat`, the
current time (`clock_now()`) is an explicit `now : Nat` parameter, and
`Duration::from_secs(k)` becomes the literal `k` (so one clock unit = one
second, matching every comparison made by the source).  Rust `Option` becomes
`Option`, and truncated `Nat` subtraction realises `clock_elapsed`, which a
monotone clock never evaluates at a time in the future.
-/

/-- `PING_INTERVAL` from dht_node.rs: ping interval in seconds. -/
def PING_INTERVAL : Nat := 60

/-- `BAD_NODE_TIMEOUT` from dht_node.rs: seconds for a non-responsive node to become bad. -/
def BAD_NODE_TIMEOUT : Nat := PING_INTERVAL * 2 + 2

/-- `KILL_NODE_TIMEOUT` from dht_node.rs: timeout after which a node is discarded. -/
def KILL_NODE_TIMEOUT : Nat := BAD_NODE_TIMEOUT + PING_INTERVAL

/-- `clock_elapsed(t)` at current time `now`: time elapsed since `t`. -/
def clock_elapsed (now t : Nat) : Nat := now - t

/-- An IPv4 address: four octets, as in `std::net::Ipv4Addr`. -/
structure Ipv4Addr where
  a : Nat
  b : Nat
  c : Nat
  d : Nat
deriving DecidableEq

/-- An IPv6 address: eight 16-bit segments, as in `std::net::Ipv6Addr`. -/
structure Ipv6Addr where
  s0 : Nat
  s1 : Nat
  s2 : Nat
  s3 : Nat
  s4 : Nat
  s5 : Nat
  s6 : Nat
  s7 : Nat
deriving DecidableEq

/-- `Ipv6Addr::to_ipv4` from the Rust standard library (the conversion used by
`DhtNode::new`): converts an IPv4-compatible (`::a.b.c.d`) or IPv4-mapped
(`::ffff:a.b.c.d`) address — segments `[0,0,0,0,0,f,g,h]` with `f = 0` or
`f = 0xffff` — to the IPv4 address built from the low two segments. -/
def Ipv6Addr.to_ipv4 (v : Ipv6Addr) : Option Ipv4Addr :=
  if v.s0 = 0 ∧ v.s1 = 0 ∧ v.s2 = 0 ∧ v.s3 = 0 ∧ v.s4 = 0 ∧ (v.s5 = 0 ∨ v.s5 = 0xffff) then
    some ⟨v.s6 / 256, v.s6 % 256, v.s7 / 256, v.s7 % 256⟩
  else
    none

/-- Spec-side definition, following the spec's words only: an IPv6 address is
IPv4-mapped when it has the form `::ffff:a.b.c.d` (as Rust's
`Ipv6Addr::to_ipv4_mapped` recognises).  Used to compare the spec's
"IPv4-mapped" normalization policy with what `DhtNode::new` actually does. -/
def Ipv6Addr.spec_is_ipv4_mapped (v : Ipv6Addr) : Bool :=
  decide (v.s0 = 0 ∧ v.s1 = 0 ∧ v.s2 = 0 ∧ v.s3 = 0 ∧ v.s4 = 0 ∧ v.s5 = 0xffff)

/-- `std::net::SocketAddrV4`: IPv4 address plus port. -/
structure SocketAddrV4 where
  ip : Ipv4Addr
  port : Nat
deriving DecidableEq

/-- `std::net::SocketAddrV6`: IPv6 address plus port (flowinfo/scope_id are
never consulted by this code and are omitted). -/
structure SocketAddrV6 where
  ip : Ipv6Addr
  port : Nat
deriving DecidableEq

/-- `std::net::SocketAddr`. -/
inductive SocketAddr where
  | v4 (addr : SocketAddrV4)
  | v6 (addr : SocketAddrV6)
deriving DecidableEq

/-- Public identity key of a node (opaque 32-byte value in the source; its
content is never inspected by the code under study, so it is abstracted). -/
def PublicKey : Type := Nat

instance : DecidableEq PublicKey := instDecidableEqNat

/-- `PackedNode` from dht/packed_node.rs: a public key together with a socket
address (the wire form of a node). -/
structure PackedNode where
  pk : PublicKey
  saddr : SocketAddr
deriving DecidableEq

/-- `SockAndTime<T>` from dht_node.rs: socket address and packet timestamps for
one transport family. -/
structure SockAndTime (T : Type) where
  saddr : Option T
  last_resp_time : Option Nat
  last_ping_req_time : Option Nat
  ret_saddr : Option T
  ret_last_resp_time : Option Nat
deriving DecidableEq

namespace SockAndTime

variable {T : Type}

/-- `SockAndTime::new`: construction at current time `now`; `last_resp_time`
is `clock_now()` when an address is given, absent otherwise. -/
def new (now : Nat) (saddr : Option T) : SockAndTime T :=
  { saddr := saddr
    last_resp_time := if saddr.isSome then some now else none
    last_ping_req_time := none
    ret_saddr := none
    ret_last_resp_time := none }

/-- `SockAndTime::is_bad`: no answer for more than `BAD_NODE_TIMEOUT` seconds. -/
def is_bad (now : Nat) (s : SockAndTime T) : Bool :=
  match s.last_resp_time with
  | none => true
  | some t => decide (BAD_NODE_TIMEOUT < clock_elapsed now t)

/-- `SockAndTime::is_discarded`: no answer for more than `KILL_NODE_TIMEOUT` seconds. -/
def is_discarded (now : Nat) (s : SockAndTime T) : Bool :=
  match s.last_resp_time with
  | none => true
  | some t => decide (KILL_NODE_TIMEOUT < clock_elapsed now t)

/-- `SockAndTime::is_ping_interval_passed`: `PING_INTERVAL` passed since the
last ping request (or none was ever sent). -/
def is_ping_interval_passed (now : Nat) (s : SockAndTime T) : Bool :=
  match s.last_ping_req_time with
  | none => true
  | some t => decide (PING_INTERVAL ≤ clock_elapsed now t)

/-- `SockAndTime::ping_addr`: return the address if it should be pinged and
update `last_ping_req_time`.  Rust's `&mut self` method becomes a function
returning the result together with the updated tracker. -/
def ping_addr (now : Nat) (s : SockAndTime T) : Option T × SockAndTime T :=
  match s.saddr with
  | some saddr =>
    if !(s.is_discarded now) && s.is_ping_interval_passed now then
      (some saddr, { s with last_ping_req_time := some now })
    else
      (none, s)
  | none => (none, s)

end SockAndTime

/-- Rust's derived `Ord` on `Option<Instant>` (used by `get_socket_addr`'s
`>=` comparison): `None` is less than every `Some`, `Some` compares inner. -/
def optInstantGe : Option Nat → Option Nat → Bool
  | some a, some b => decide (b ≤ a)
  | some _, none => true
  | none, none => true
  | none, some _ => false

/-- `DhtNode` from dht_node.rs: dual-stack peer entry. -/
structure DhtNode where
  assoc4 : SockAndTime SocketAddrV4
  assoc6 : SockAndTime SocketAddrV6
  pk : PublicKey
deriving DecidableEq

namespace DhtNode

/-- `DhtNode::new`: classify the packed node's address into the IPv4 or IPv6
tracker; an IPv6 address convertible by `to_ipv4` is stored (with its port) in
the IPv4 tracker instead. -/
def new (now : Nat) (pn : PackedNode) : DhtNode :=
  let saddrs : Option SocketAddrV4 × Option SocketAddrV6 :=
    match pn.saddr with
    | .v4 v4 => (some v4, none)
    | .v6 v6 =>
      match v6.ip.to_ipv4 with
      | some converted_ip4 => (some ⟨converted_ip4, v6.port⟩, none)
      | none => (none, some v6)
  { pk := pn.pk
    assoc4 := SockAndTime.new now saddrs.1
    assoc6 := SockAndTime.new now saddrs.2 }

/-- `DhtNode::is_bad`: bad on both families. -/
def is_bad (now : Nat) (n : DhtNode) : Bool :=
  n.assoc4.is_bad now && n.assoc6.is_bad now

/-- `DhtNode::is_discarded`: discarded on both families. -/
def is_discarded (now : Nat) (n : DhtNode) : Bool :=
  n.assoc4.is_discarded now && n.assoc6.is_discarded now

/-- `DhtNode::get_socket_addr`: resolve the single address to present, given
the IPv6-enabled flag. -/
def get_socket_addr (is_ipv6_enabled : Bool) (n : DhtNode) : Option SocketAddr :=
  if is_ipv6_enabled then
    match n.assoc6.saddr with
    | some v6 =>
      match n.assoc4.saddr with
      | some v4 =>
        if optInstantGe n.assoc4.last_resp_time n.assoc6.last_resp_time then
          some (.v4 v4)
        else
          some (.v6 v6)
      | none => some (.v6 v6)
    | none => n.assoc4.saddr.map .v4
  else
    n.assoc4.saddr.map .v4

end DhtNode

/-- Modelled from the spec: the node type stored in a `Bucket`
(dht/kbucket.rs, which is not among the given source files).  Per §3 of the
spec a Close-Node List entry carries an identity key, an address and liveness
timestamps; dht_friend.rs additionally reads and writes a single per-node
`last_ping_req_time` field and calls `is_bad()` and a conversion into
`PackedNode` on it, so the type carries exactly those. -/
structure BucketNode where
  pk : PublicKey
  saddr : SocketAddr
  last_resp_time : Option Nat
  last_ping_req_time : Option Nat
deriving DecidableEq

namespace BucketNode

/-- Modelled from the spec (§4.1): a Close-Node List entry is stale ("bad")
when `last_resp_time` is absent or more than `BAD_NODE_TIMEOUT` seconds old. -/
def is_bad (now : Nat) (n : BucketNode) : Bool :=
  match n.last_resp_time with
  | none => true
  | some t => decide (BAD_NODE_TIMEOUT < clock_elapsed now t)

/-- Modelled from the spec (§4.1): a Close-Node List entry is expired
("discarded") when `last_resp_time` is absent or more than `KILL_NODE_TIMEOUT`
seconds old. -/
def is_discarded (now : Nat) (n : BucketNode) : Bool :=
  match n.last_resp_time with
  | none => true
  | some t => decide (KILL_NODE_TIMEOUT < clock_elapsed now t)

/-- Modelled from the spec: the `Into<PackedNode>` conversion used by
dht_friend.rs (`node.clone().into()` / `Bucket::to_packed`): key plus address. -/
def toPacked (n : BucketNode) : PackedNode :=
  { pk := n.pk, saddr := n.saddr }

end BucketNode

/-- Modelled from the spec (§4.4): `NODES_REQ_INTERVAL` (`T_discovery`), the
discovery-query throttle interval, defined in dht/server.rs which is not among
the given source files; the spec gives 60 seconds. -/
def NODES_REQ_INTERVAL : Nat := 60

/-- Modelled from the spec (§4.4): `MAX_BOOTSTRAP_TIMES`, the discovery
attempt cap, defined in dht/server.rs which is not among the given source
files; the spec gives 3 attempts. -/
def MAX_BOOTSTRAP_TIMES : Nat := 3

/-- A default `PackedNode`, used only to realise Rust's panic-free indexing
`good_nodes[random_node]` at an index proved in bounds. -/
def dfltPackedNode : PackedNode :=
  { pk := (0 : Nat), saddr := .v4 ⟨⟨0, 0, 0, 0⟩, 0⟩ }

/-- `DhtFriend` from dht_friend.rs.  The two `Bucket`s are modelled by their
node lists (`Bucket::new(None)` starts empty; capacity handling lives in the
absent kbucket.rs and is not exercised by the functions under study); the
hole-punching state is out of scope and omitted. -/
structure DhtFriend where
  pk : PublicKey
  close_nodes : List BucketNode
  last_nodes_req_time : Option Nat
  bootstrap_times : Nat
  bootstrap_nodes : List BucketNode
deriving DecidableEq

namespace DhtFriend

/-- `DhtFriend::new`. -/
def new (pk : PublicKey) : DhtFriend :=
  { pk := pk
    close_nodes := []
    last_nodes_req_time := none
    bootstrap_times := 0
    bootstrap_nodes := [] }

/-- `DhtFriend::ping_bootstrap_nodes`: swap the bootstrap bucket for an empty
one and send one NodesRequest per drained candidate.  The outbound sends are
returned as the list of targeted `PackedNode`s, in order. -/
def ping_bootstrap_nodes (f : DhtFriend) : DhtFriend × List PackedNode :=
  ({ f with bootstrap_nodes := [] }, f.bootstrap_nodes.map BucketNode.toPacked)

/-- The per-node send gate of `DhtFriend::ping_and_get_close_nodes`:
`last_ping_req_time` absent, or at least `PING_INTERVAL` seconds old. -/
def pingGate (now : Nat) (n : BucketNode) : Bool :=
  match n.last_ping_req_time with
  | none => true
  | some t => decide (PING_INTERVAL ≤ clock_elapsed now t)

/-- The per-node state update of `DhtFriend::ping_and_get_close_nodes`: a node
passing the gate gets `last_ping_req_time = Some(Instant::now())`. -/
def stampPing (now : Nat) (n : BucketNode) : BucketNode :=
  if pingGate now n then { n with last_ping_req_time := some now } else n

/-- `DhtFriend::ping_and_get_close_nodes`: for each close node, if the ping
interval passed since its last ping request, stamp it and send a NodesRequest
to it; otherwise leave it alone.  The single iteration of the source is
rendered as the update map plus the list of targeted nodes. -/
def ping_and_get_close_nodes (now : Nat) (f : DhtFriend) : DhtFriend × List PackedNode :=
  ({ f with close_nodes := f.close_nodes.map (stampPing now) },
   (f.close_nodes.filter (pingGate now)).map BucketNode.toPacked)

/-- The two-draw index selection of `DhtFriend::send_nodes_req_random`:
`random_node = r1 % num`, then if nonzero subtract `r2 % (random_node + 1)`.
The raw draws `r1`, `r2` stand for successive `random_usize()` results. -/
def selectRandomIndex (num r1 r2 : Nat) : Nat :=
  let random_node := r1 % num
  if random_node ≠ 0 then random_node - r2 % (random_node + 1) else random_node

/-- `DhtFriend::send_nodes_req_random`: throttled, distance-biased random
discovery query over the non-bad close nodes. -/
def send_nodes_req_random (now r1 r2 : Nat) (f : DhtFriend) : DhtFriend × List PackedNode :=
  if (match f.last_nodes_req_time with
      | none => false
      | some t => decide (clock_elapsed now t < NODES_REQ_INTERVAL)) &&
     decide (f.bootstrap_times ≥ MAX_BOOTSTRAP_TIMES) then
    (f, [])
  else
    let good_nodes := (f.close_nodes.filter (fun n => !(n.is_bad now))).map BucketNode.toPacked
    if !good_nodes.isEmpty then
      let random_node := good_nodes.getD (selectRandomIndex good_nodes.length r1 r2) dfltPackedNode
      ({ f with bootstrap_times := f.bootstrap_times + 1, last_nodes_req_time := some now },
       [random_node])
    else
      (f, [])

/-- `DhtFriend::send_nodes_req_packets`: the maintenance cycle.  Each of the
three sub-task methods mutates the friend synchronously when called, in this
order, before the returned futures are joined; the sends of the three
sub-tasks are returned as three separate lists (bootstrap, close-node refresh,
random discovery). -/
def send_nodes_req_packets (now r1 r2 : Nat) (f : DhtFriend) :
    DhtFriend × List PackedNode × List PackedNode × List PackedNode :=
  let rb := f.ping_bootstrap_nodes
  let rc := rb.1.ping_and_get_close_nodes now
  let rr := rc.1.send_nodes_req_random now r1 r2
  (rr.1, rb.2, rc.2, rr.2)

end DhtFriend

/-- The probability that the two-draw selection of
`DhtFriend.selectRandomIndex` over a pool of size `k` yields index `v`, under
the construction's idealised distribution: the first draw uniform over
`[0, k)` and the second, when the first is nonzero, uniform over
`[0, first + 1)`. -/
def probSelectEq (k v : Nat) : ℚ :=
  ((Finset.range k).sum fun i =>
    (((Finset.range (i + 1)).filter fun j => DhtFriend.selectRandomIndex k i j = v).card : ℚ) /
      (i + 1)) / k

/-- `nom::IResult`, the parser result type consumed by `Codec::decode`:
incomplete input, a parse error, or success carrying the remaining input and
the parsed value.  The error/needed payloads are never inspected by the
decode control flow and are omitted. -/
inductive IResult (α : Type) where
  | incomplete
  | error
  | done (remaining : List Nat) (value : α)

/-- `EncryptedPacket` from tcp/packet.rs: the encrypted payload bytes (the
only field `Codec::decode` uses). -/
structure EncryptedPacket where
  payload : List Nat

/-- `DecodeError` from tcp/codec.rs, with the payload fields `decode` stores
in each variant (the nom error kinds and `Needed` values are opaque). -/
inductive DecodeError where
  | deserializeEncryptedError (buf : List Nat)
  | decryptError
  | incompleteDecryptedPacket (packet : List Nat)
  | deserializeDecryptedError (packet : List Nat)

/-- `Codec::decode` from tcp/codec.rs, parametrised by its three external
collaborators — `EncryptedPacket::from_bytes`, `Channel::decrypt` and
`Packet::from_bytes` (all defined outside the given source files) — and by
the decrypted packet type `P`.  The byte buffer is a `List Nat`;
`buf.offset(i)` is the length difference to the remaining slice `i`, and
`buf.split_to(consumed)` drops the consumed prefix.  Returns the
`Result<Option<Packet>, DecodeError>` together with the buffer as left by the
call. -/
def Codec.decode {P : Type}
    (encFromBytes : List Nat → IResult EncryptedPacket)
    (decrypt : List Nat → Option (List Nat))
    (packetFromBytes : List Nat → IResult P)
    (buf : List Nat) : Except DecodeError (Option P) × List Nat :=
  match encFromBytes buf with
  | .incomplete => (.ok none, buf)
  | .error => (.error (.deserializeEncryptedError buf), buf)
  | .done i encrypted_packet =>
    let consumed := buf.length - i.length
    match decrypt encrypted_packet.payload with
    | none => (.error .decryptError, buf)
    | some decrypted_data =>
      match packetFromBytes decrypted_data with
      | .incomplete => (.error (.incompleteDecryptedPacket decrypted_data), buf)
      | .error => (.error (.deserializeDecryptedError decrypted_data), buf)
      | .done _ packet => (.ok (some packet), buf.drop consumed)

/-- C4: for every Liveness Tracker, `is_bad` is true iff `last_resp_time` is
absent or more than `BAD_NODE_TIMEOUT = 122` seconds have elapsed since it,
`is_discarded` is true iff `last_resp_time` is absent or more than
`KILL_NODE_TIMEOUT = 182` seconds have elapsed, the expiry threshold strictly
exceeds the staleness threshold, and every discarded tracker is bad. -/
theorem sock_and_time_staleness_expiry {T : Type} (now : Nat) (s : SockAndTime T) :
    (s.is_bad now = true ↔
      s.last_resp_time = none ∨
        ∃ t, s.last_resp_time = some t ∧ BAD_NODE_TIMEOUT < clock_elapsed now t) ∧
    (s.is_discarded now = true ↔
      s.last_resp_time = none ∨
        ∃ t, s.last_resp_time = some t ∧ KILL_NODE_TIMEOUT < clock_elapsed now t) ∧
    BAD_NODE_TIMEOUT = 122 ∧ KILL_NODE_TIMEOUT = 182 ∧ BAD_NODE_TIMEOUT < KILL_NODE_TIMEOUT ∧
    (s.is_discarded now = true → s.is_bad now = true) := by
  cases h : s.last_resp_time with
  | none =>
    simp [SockAndTime.is_bad, SockAndTime.is_discarded, h, BAD_NODE_TIMEOUT,
      KILL_NODE_TIMEOUT, PING_INTERVAL]
  | some t =>
    simp [SockAndTime.is_bad, SockAndTime.is_discarded, h, clock_elapsed,
      BAD_NODE_TIMEOUT, KILL_NODE_TIMEOUT, PING_INTERVAL]
    omega

/-- Witness for C4 at a concrete tracker: a tracker last heard from at time 0
is bad at time 200. -/
theorem sock_and_time_staleness_expiry_witness :
    SockAndTime.is_bad 200
      ({ saddr := some (⟨⟨127, 0, 0, 1⟩, 33445⟩ : SocketAddrV4)
         last_resp_time := some 0
         last_ping_req_time := none
         ret_saddr := none
         ret_last_resp_time := none } : SockAndTime SocketAddrV4) = true :=
  (sock_and_time_staleness_expiry 200 _).1.mpr (Or.inr ⟨0, rfl, by decide⟩)

/-- C2: `ping_addr` returns the stored address and stamps
`last_ping_req_time = now` iff the tracker is not discarded and the ping
interval has passed; a tracker with no address always returns `none`; in all
other cases it returns `none` and leaves the tracker completely unchanged. -/
theorem ping_addr_contract {T : Type} (now : Nat) (s : SockAndTime T) :
    (s.saddr = none → s.ping_addr now = (none, s)) ∧
    ∀ a, s.saddr = some a →
      (s.is_discarded now = false → s.is_ping_interval_passed now = true →
        s.ping_addr now = (some a, { s with last_ping_req_time := some now })) ∧
      (s.is_discarded now = true ∨ s.is_ping_interval_passed now = false →
        s.ping_addr now = (none, s)) := by
  refine ⟨fun h => by simp [SockAndTime.ping_addr, h], fun a ha => ⟨fun hd hp => ?_, fun hor => ?_⟩⟩
  · simp [SockAndTime.ping_addr, ha, hd, hp]
  · rcases hor with hd | hp
    · simp [SockAndTime.ping_addr, ha, hd]
    · simp [SockAndTime.ping_addr, ha, hp]

/-- Witness for C2 at a concrete tracker: a freshly constructed tracker with
an address is pinged at once and its `last_ping_req_time` is stamped. -/
theorem ping_addr_contract_witness :
    SockAndTime.ping_addr 0 (SockAndTime.new 0 (some (⟨⟨127, 0, 0, 1⟩, 33445⟩ : SocketAddrV4))) =
      (some ⟨⟨127, 0, 0, 1⟩, 33445⟩,
       { SockAndTime.new 0 (some (⟨⟨127, 0, 0, 1⟩, 33445⟩ : SocketAddrV4)) with
           last_ping_req_time := some 0 }) :=
  ((ping_addr_contract 0
      (SockAndTime.new 0 (some (⟨⟨127, 0, 0, 1⟩, 33445⟩ : SocketAddrV4)))).2
    (⟨⟨127, 0, 0, 1⟩, 33445⟩ : SocketAddrV4) (by rfl)).1 (by decide) (by decide)

/-- C9: a tracker constructed with an address records the construction time as
`last_resp_time`, starts neither bad nor discarded, and becomes bad/discarded
exactly when more than `BAD_NODE_TIMEOUT`/`KILL_NODE_TIMEOUT` seconds elapse
without a response; a tracker constructed with no address has no
`last_resp_time` and is immediately both bad and discarded. -/
theorem tracker_new_initial {T : Type} (now later : Nat) (a : T) :
    (SockAndTime.new now (some a)).last_resp_time = some now ∧
    (SockAndTime.new now (some a)).is_bad now = false ∧
    (SockAndTime.new now (some a)).is_discarded now = false ∧
    ((SockAndTime.new now (some a)).is_bad later = true ↔
      BAD_NODE_TIMEOUT < clock_elapsed later now) ∧
    ((SockAndTime.new now (some a)).is_discarded later = true ↔
      KILL_NODE_TIMEOUT < clock_elapsed later now) ∧
    (SockAndTime.new now (none : Option T)).last_resp_time = none ∧
    (SockAndTime.new now (none : Option T)).is_bad later = true ∧
    (SockAndTime.new now (none : Option T)).is_discarded later = true := by
  simp [SockAndTime.new, SockAndTime.is_bad, SockAndTime.is_discarded, clock_elapsed,
    BAD_NODE_TIMEOUT, KILL_NODE_TIMEOUT, PING_INTERVAL]

/-- Witness for C9 at a concrete tracker: a tracker constructed with an
address at time 5 is not bad at time 5. -/
theorem tracker_new_initial_witness :
    (SockAndTime.new 5 (some (⟨⟨1, 2, 3, 4⟩, 5⟩ : SocketAddrV4))).is_bad 5 = false :=
  (tracker_new_initial 5 5 (⟨⟨1, 2, 3, 4⟩, 5⟩ : SocketAddrV4)).2.1

/-- Counterexample to C1 as stated: a peer with both families populated and
equal `last_resp_time` values yields the IPv4 address from `get_socket_addr`
with IPv6 enabled, not the IPv6 address the claim's tie-break predicts. -/
theorem get_socket_addr_tie_counterexample :
    DhtNode.get_socket_addr true
      { assoc4 := { saddr := some ⟨⟨1, 2, 3, 4⟩, 5⟩
                    last_resp_time := some 10
                    last_ping_req_time := none
                    ret_saddr := none
                    ret_last_resp_time := none }
        assoc6 := { saddr := some ⟨⟨0, 0, 0, 0, 0, 0, 0, 1⟩, 5⟩
                    last_resp_time := some 10
                    last_ping_req_time := none
                    ret_saddr := none
                    ret_last_resp_time := none }
        pk := (0 : Nat) } = some (.v4 ⟨⟨1, 2, 3, 4⟩, 5⟩) ∧
    some (SocketAddr.v4 ⟨⟨1, 2, 3, 4⟩, 5⟩) ≠
      some (SocketAddr.v6 ⟨⟨0, 0, 0, 0, 0, 0, 0, 1⟩, 5⟩) := by
  decide

/-- C1 (amended): `get_socket_addr` with IPv6 disabled yields the IPv4
address if present; with IPv6 enabled and only one family populated it yields
that family's address; with both populated it yields the family with the
strictly more recent `last_resp_time`, where an absent `last_resp_time`
counts as least recent and ties — equal timestamps, or both absent — favor
the IPv4 address. -/
theorem get_socket_addr_preference (n : DhtNode) :
    (n.get_socket_addr false = n.assoc4.saddr.map .v4) ∧
    (n.assoc6.saddr = none → n.get_socket_addr true = n.assoc4.saddr.map .v4) ∧
    (∀ v6, n.assoc6.saddr = some v6 → n.assoc4.saddr = none →
      n.get_socket_addr true = some (.v6 v6)) ∧
    (∀ v4 v6, n.assoc4.saddr = some v4 → n.assoc6.saddr = some v6 →
      (∀ t4 t6, n.assoc4.last_resp_time = some t4 → n.assoc6.last_resp_time = some t6 →
        (t6 ≤ t4 → n.get_socket_addr true = some (.v4 v4)) ∧
        (t4 < t6 → n.get_socket_addr true = some (.v6 v6))) ∧
      (n.assoc6.last_resp_time = none → n.get_socket_addr true = some (.v4 v4)) ∧
      (n.assoc4.last_resp_time = none → ∀ t6, n.assoc6.last_resp_time = some t6 →
        n.get_socket_addr true = some (.v6 v6))) := by
  refine ⟨by simp [DhtNode.get_socket_addr], fun h6 => by simp [DhtNode.get_socket_addr, h6],
    fun v6 h6 h4 => by simp [DhtNode.get_socket_addr, h6, h4],
    fun v4 v6 h4 h6 => ⟨fun t4 t6 ht4 ht6 => ⟨fun hle => ?_, fun hlt => ?_⟩,
      fun ht6 => ?_, fun ht4 t6 ht6 => ?_⟩⟩
  · simp [DhtNode.get_socket_addr, h4, h6, ht4, ht6, optInstantGe, hle]
  · simp [DhtNode.get_socket_addr, h4, h6, ht4, ht6, optInstantGe, Nat.not_le.mpr hlt]
  · cases ht4 : n.assoc4.last_resp_time <;>
      simp [DhtNode.get_socket_addr, h4, h6, ht4, ht6, optInstantGe]
  · simp [DhtNode.get_socket_addr, h4, h6, ht4, ht6, optInstantGe]

/-- Witness for C1 (amended) at a concrete peer: with IPv6 enabled and the
IPv6 family strictly more recent, the IPv6 address is returned. -/
theorem get_socket_addr_preference_witness :
    DhtNode.get_socket_addr true
      { assoc4 := { saddr := some ⟨⟨1, 2, 3, 4⟩, 5⟩
                    last_resp_time := some 10
                    last_ping_req_time := none
                    ret_saddr := none
                    ret_last_resp_time := none }
        assoc6 := { saddr := some ⟨⟨0, 0, 0, 0, 0, 0, 0, 1⟩, 5⟩
                    last_resp_time := some 11
                    last_ping_req_time := none
                    ret_saddr := none
                    ret_last_resp_time := none }
        pk := (0 : Nat) } = some (.v6 ⟨⟨0, 0, 0, 0, 0, 0, 0, 1⟩, 5⟩) :=
  (((get_socket_addr_preference _).2.2.2 ⟨⟨1, 2, 3, 4⟩, 5⟩ ⟨⟨0, 0, 0, 0, 0, 0, 0, 1⟩, 5⟩
      (by rfl) (by rfl)).1 10 11 (by rfl) (by rfl)).2 (by decide)

/-- Counterexample to C8 as stated: `::1` (loopback) is not an IPv4-mapped
address, yet `DhtNode::new` folds it into the IPv4 tracker (as `0.0.0.1`,
keeping the port) and leaves the IPv6 tracker empty, because
`Ipv6Addr::to_ipv4` also converts IPv4-compatible addresses; the claim
predicts the IPv6 tracker would be populated. -/
theorem dht_node_new_v4_compatible_counterexample :
    Ipv6Addr.spec_is_ipv4_mapped ⟨0, 0, 0, 0, 0, 0, 0, 1⟩ = false ∧
    (DhtNode.new 0
      { pk := (0 : Nat), saddr := .v6 ⟨⟨0, 0, 0, 0, 0, 0, 0, 1⟩, 33445⟩ }).assoc6.saddr = none ∧
    (DhtNode.new 0
      { pk := (0 : Nat), saddr := .v6 ⟨⟨0, 0, 0, 0, 0, 0, 0, 1⟩, 33445⟩ }).assoc4.saddr =
      some ⟨⟨0, 0, 0, 1⟩, 33445⟩ := by
  decide

/-- C8 (amended): a Peer Entry constructed from an (address, key) pair keeps
the key and populates exactly one tracker: an IPv4 address populates the IPv4
tracker; an IPv6 address that `Ipv6Addr::to_ipv4` converts — IPv4-mapped
(`::ffff:a.b.c.d`) or IPv4-compatible (`::a.b.c.d`) — is normalized (keeping
the port) into the IPv4 tracker with the IPv6 tracker left empty; any other
IPv6 address populates the IPv6 tracker only. -/
theorem dht_node_new_classification (now : Nat) (pn : PackedNode) :
    (DhtNode.new now pn).pk = pn.pk ∧
    (∀ v4, pn.saddr = .v4 v4 →
      (DhtNode.new now pn).assoc4 = SockAndTime.new now (some v4) ∧
      (DhtNode.new now pn).assoc6 = SockAndTime.new now (none : Option SocketAddrV6)) ∧
    (∀ v6, pn.saddr = .v6 v6 →
      (∀ ip4, v6.ip.to_ipv4 = some ip4 →
        (DhtNode.new now pn).assoc4 = SockAndTime.new now (some ⟨ip4, v6.port⟩) ∧
        (DhtNode.new now pn).assoc6 = SockAndTime.new now (none : Option SocketAddrV6)) ∧
      (v6.ip.to_ipv4 = none →
        (DhtNode.new now pn).assoc4 = SockAndTime.new now (none : Option SocketAddrV4) ∧
        (DhtNode.new now pn).assoc6 = SockAndTime.new now (some v6))) := by
  refine ⟨by simp [DhtNode.new], fun v4 h4 => by simp [DhtNode.new, h4],
    fun v6 h6 => ⟨fun ip4 hconv => ?_, fun hconv => ?_⟩⟩
  · simp [DhtNode.new, h6, hconv]
  · simp [DhtNode.new, h6, hconv]

/-- Witness for C8 (amended) at a concrete input: a genuinely-IPv6 address
(`2001:db8::1`) populates the IPv6 tracker only. -/
theorem dht_node_new_classification_witness :
    (DhtNode.new 0
      { pk := (7 : Nat),
        saddr := .v6 ⟨⟨0x2001, 0xdb8, 0, 0, 0, 0, 0, 1⟩, 33445⟩ }).assoc6 =
      SockAndTime.new 0 (some ⟨⟨0x2001, 0xdb8, 0, 0, 0, 0, 0, 1⟩, 33445⟩) :=
  (((dht_node_new_classification 0
      { pk := (7 : Nat), saddr := .v6 ⟨⟨0x2001, 0xdb8, 0, 0, 0, 0, 0, 1⟩, 33445⟩ }).2.2
    ⟨⟨0x2001, 0xdb8, 0, 0, 0, 0, 0, 1⟩, 33445⟩ (by rfl)).2 (by decide)).2

/-- Helper: one refresh pass stamps every gated node with `now`, so over any
window shorter than `PING_INTERVAL` the queries of two consecutive passes
cannot exceed one per list entry. -/
theorem refresh_window_bound (now now' : Nat) (h1 : now ≤ now')
    (h2 : now' < now + PING_INTERVAL) (l : List BucketNode) :
    ((l.map (DhtFriend.stampPing now)).filter (DhtFriend.pingGate now')).length +
      (l.filter (DhtFriend.pingGate now)).length ≤ l.length := by
  induction l with
  | nil => simp
  | cons n l ih =>
    by_cases hg : DhtFriend.pingGate now n = true
    · have hs : DhtFriend.stampPing now n = { n with last_ping_req_time := some now } := by
        simp [DhtFriend.stampPing, hg]
      have hgate' :
          DhtFriend.pingGate now' { n with last_ping_req_time := some now } = false := by
        simp only [DhtFriend.pingGate, clock_elapsed, decide_eq_false_iff_not, Nat.not_le]
        simp only [PING_INTERVAL] at h2 ⊢
        omega
      simp only [List.map_cons, hs, List.filter_cons, hgate', hg, if_true, if_false,
        Bool.false_eq_true, List.length_cons]
      omega
    · have hs : DhtFriend.stampPing now n = n := by simp [DhtFriend.stampPing, hg]
      by_cases hg' : DhtFriend.pingGate now' n = true
      · simp only [List.map_cons, hs, List.filter_cons, hg, hg', if_true, if_false,
          Bool.false_eq_true, List.length_cons]
        omega
      · simp only [List.map_cons, hs, List.filter_cons, hg, hg', if_true, if_false,
          Bool.false_eq_true, List.length_cons]
        omega

/-- Helper: the random-discovery sub-task never touches the close-node list. -/
theorem send_nodes_req_random_close_nodes (now r1 r2 : Nat) (f : DhtFriend) :
    (f.send_nodes_req_random now r1 r2).1.close_nodes = f.close_nodes := by
  unfold DhtFriend.send_nodes_req_random
  split
  · rfl
  · dsimp only
    split <;> rfl

/-- Helper: the random-discovery sub-task never touches the bootstrap list. -/
theorem send_nodes_req_random_bootstrap_nodes (now r1 r2 : Nat) (f : DhtFriend) :
    (f.send_nodes_req_random now r1 r2).1.bootstrap_nodes = f.bootstrap_nodes := by
  unfold DhtFriend.send_nodes_req_random
  split
  · rfl
  · dsimp only
    split <;> rfl

/-- Counterexample to C3 as stated: a close node whose `last_resp_time` is
1000 seconds old is discarded (expired), yet the maintenance cycle's refresh
sub-task still sends it a query, because `ping_and_get_close_nodes` gates
only on `last_ping_req_time` and never checks expiry. -/
theorem refresh_queries_discarded_counterexample :
    BucketNode.is_discarded 1000
      { pk := (1 : Nat), saddr := .v4 ⟨⟨127, 0, 0, 1⟩, 33445⟩
        last_resp_time := some 0, last_ping_req_time := none } = true ∧
    (DhtFriend.send_nodes_req_packets 1000 0 0
      { pk := (0 : Nat)
        close_nodes := [{ pk := (1 : Nat), saddr := .v4 ⟨⟨127, 0, 0, 1⟩, 33445⟩
                          last_resp_time := some 0, last_ping_req_time := none }]
        last_nodes_req_time := none
        bootstrap_times := 0
        bootstrap_nodes := [] }).2.2.1 =
      [{ pk := (1 : Nat), saddr := .v4 ⟨⟨127, 0, 0, 1⟩, 33445⟩ }] := by
  decide

/-- C3 (amended): within one maintenance cycle the close-node refresh
sub-task queries exactly the entries passing a per-peer gate on the entry's
single `last_ping_req_time` (absent, or at least `PING_INTERVAL` seconds
old); expiry is not consulted, so discarded peers may still be queried; each
entry is queried at most once per cycle and, across two cycles within one
`PING_INTERVAL` window, at most once per entry in total. -/
theorem close_nodes_refresh_gating (now now' r1 r2 r1' r2' : Nat) (f : DhtFriend)
    (h1 : now ≤ now') (h2 : now' < now + PING_INTERVAL) :
    (f.send_nodes_req_packets now r1 r2).2.2.1 =
      (f.close_nodes.filter (DhtFriend.pingGate now)).map BucketNode.toPacked ∧
    (∀ n : BucketNode,
      DhtFriend.pingGate now n = true ↔
        n.last_ping_req_time = none ∨
          ∃ t, n.last_ping_req_time = some t ∧ PING_INTERVAL ≤ clock_elapsed now t) ∧
    ((f.send_nodes_req_packets now r1 r2).1.send_nodes_req_packets now' r1' r2').2.2.1.length +
        (f.send_nodes_req_packets now r1 r2).2.2.1.length ≤ f.close_nodes.length := by
  have hclose : (f.send_nodes_req_packets now r1 r2).1.close_nodes =
      f.close_nodes.map (DhtFriend.stampPing now) := by
    simp [DhtFriend.send_nodes_req_packets, DhtFriend.ping_bootstrap_nodes,
      DhtFriend.ping_and_get_close_nodes, send_nodes_req_random_close_nodes]
  refine ⟨by simp [DhtFriend.send_nodes_req_packets, DhtFriend.ping_bootstrap_nodes,
      DhtFriend.ping_and_get_close_nodes], fun n => ?_, ?_⟩
  · cases h : n.last_ping_req_time <;> simp [DhtFriend.pingGate, h]
  · have hq2 : ((f.send_nodes_req_packets now r1 r2).1.send_nodes_req_packets now' r1' r2').2.2.1 =
        (((f.send_nodes_req_packets now r1 r2).1.close_nodes.filter
          (DhtFriend.pingGate now')).map BucketNode.toPacked) := by
      simp [DhtFriend.send_nodes_req_packets, DhtFriend.ping_bootstrap_nodes,
        DhtFriend.ping_and_get_close_nodes]
    have hq1 : (f.send_nodes_req_packets now r1 r2).2.2.1 =
        (f.close_nodes.filter (DhtFriend.pingGate now)).map BucketNode.toPacked := by
      simp [DhtFriend.send_nodes_req_packets, DhtFriend.ping_bootstrap_nodes,
        DhtFriend.ping_and_get_close_nodes]
    rw [hq2, hq1, hclose, List.length_map, List.length_map]
    exact refresh_window_bound now now' h1 h2 f.close_nodes

/-- Witness for C3 (amended) at a concrete friend: one fresh close node, a
cycle at time 0 and another at time 30 issue at most one refresh query in
total. -/
theorem close_nodes_refresh_gating_witness :
    ((DhtFriend.send_nodes_req_packets 0 0 0
        { pk := (0 : Nat)
          close_nodes := [{ pk := (1 : Nat), saddr := .v4 ⟨⟨127, 0, 0, 1⟩, 33445⟩
                            last_resp_time := some 0, last_ping_req_time := none }]
          last_nodes_req_time := none
          bootstrap_times := 0
          bootstrap_nodes := [] }).1.send_nodes_req_packets 30 0 0).2.2.1.length +
      (DhtFriend.send_nodes_req_packets 0 0 0
        { pk := (0 : Nat)
          close_nodes := [{ pk := (1 : Nat), saddr := .v4 ⟨⟨127, 0, 0, 1⟩, 33445⟩
                            last_resp_time := some 0, last_ping_req_time := none }]
          last_nodes_req_time := none
          bootstrap_times := 0
          bootstrap_nodes := [] }).2.2.1.length ≤ 1 :=
  (close_nodes_refresh_gating 0 30 0 0 0 0
    { pk := (0 : Nat)
      close_nodes := [{ pk := (1 : Nat), saddr := .v4 ⟨⟨127, 0, 0, 1⟩, 33445⟩
                        last_resp_time := some 0, last_ping_req_time := none }]
      last_nodes_req_time := none
      bootstrap_times := 0
      bootstrap_nodes := [] } (by decide) (by decide)).2.2

/-- C5: one maintenance cycle empties the Bootstrap List, issues exactly one
bootstrap query per candidate that was in it at the start (in order), and a
second immediate cycle issues zero bootstrap queries. -/
theorem bootstrap_drain_exactly_once (now now' r1 r2 r1' r2' : Nat) (f : DhtFriend) :
    (f.send_nodes_req_packets now r1 r2).1.bootstrap_nodes = [] ∧
    (f.send_nodes_req_packets now r1 r2).2.1 = f.bootstrap_nodes.map BucketNode.toPacked ∧
    (f.send_nodes_req_packets now r1 r2).2.1.length = f.bootstrap_nodes.length ∧
    ((f.send_nodes_req_packets now r1 r2).1.send_nodes_req_packets now' r1' r2').2.1 = [] := by
  have hb : (f.send_nodes_req_packets now r1 r2).1.bootstrap_nodes = [] := by
    simp [DhtFriend.send_nodes_req_packets, DhtFriend.ping_bootstrap_nodes,
      DhtFriend.ping_and_get_close_nodes, send_nodes_req_random_bootstrap_nodes]
  have hq : ∀ (g : DhtFriend) (m a b : Nat),
      (g.send_nodes_req_packets m a b).2.1 = g.bootstrap_nodes.map BucketNode.toPacked :=
    fun g m a b => by
      simp [DhtFriend.send_nodes_req_packets, DhtFriend.ping_bootstrap_nodes]
  refine ⟨hb, hq f now r1 r2, ?_, ?_⟩
  · rw [hq f now r1 r2, List.length_map]
  · rw [hq _ now' r1' r2', hb, List.map_nil]

/-- Helper: a list is non-empty exactly when `!isEmpty` holds. -/
theorem bool_not_isEmpty_iff {α : Type} (l : List α) : (!l.isEmpty) = true ↔ l ≠ [] := by
  cases l <;> simp

/-- C7: the random-discovery sub-task is skipped — friend returned unchanged,
no query — iff a discovery query was sent within `NODES_REQ_INTERVAL = 60`
seconds of now and the attempt counter reached `MAX_BOOTSTRAP_TIMES = 3`;
when not skipped, an empty pool of non-bad close nodes gives a no-op, and a
non-empty pool gives exactly one query (to the two-draw selected entry), an
incremented attempt counter, and a stamped discovery timestamp. -/
theorem discovery_throttle_contract (now r1 r2 : Nat) (f : DhtFriend) :
    ((∃ t, f.last_nodes_req_time = some t ∧ clock_elapsed now t < NODES_REQ_INTERVAL) ∧
        MAX_BOOTSTRAP_TIMES ≤ f.bootstrap_times →
      f.send_nodes_req_random now r1 r2 = (f, [])) ∧
    (¬ ((∃ t, f.last_nodes_req_time = some t ∧ clock_elapsed now t < NODES_REQ_INTERVAL) ∧
        MAX_BOOTSTRAP_TIMES ≤ f.bootstrap_times) →
      ((f.close_nodes.filter fun n => !(n.is_bad now)).map BucketNode.toPacked = [] →
        f.send_nodes_req_random now r1 r2 = (f, [])) ∧
      ((f.close_nodes.filter fun n => !(n.is_bad now)).map BucketNode.toPacked ≠ [] →
        f.send_nodes_req_random now r1 r2 =
          ({ f with bootstrap_times := f.bootstrap_times + 1,
                    last_nodes_req_time := some now },
           [((f.close_nodes.filter fun n => !(n.is_bad now)).map BucketNode.toPacked).getD
              (DhtFriend.selectRandomIndex
                ((f.close_nodes.filter fun n => !(n.is_bad now)).map
                  BucketNode.toPacked).length r1 r2)
              dfltPackedNode]))) := by
  have hcond : ((match f.last_nodes_req_time with
      | none => false
      | some t => decide (clock_elapsed now t < NODES_REQ_INTERVAL)) &&
     decide (f.bootstrap_times ≥ MAX_BOOTSTRAP_TIMES)) = true ↔
      ((∃ t, f.last_nodes_req_time = some t ∧ clock_elapsed now t < NODES_REQ_INTERVAL) ∧
        MAX_BOOTSTRAP_TIMES ≤ f.bootstrap_times) := by
    cases h : f.last_nodes_req_time <;> simp [h]
  constructor
  · intro hskip
    unfold DhtFriend.send_nodes_req_random
    rw [if_pos (hcond.mpr hskip)]
  · intro hns
    have hc : ¬ (((match f.last_nodes_req_time with
        | none => false
        | some t => decide (clock_elapsed now t < NODES_REQ_INTERVAL)) &&
       decide (f.bootstrap_times ≥ MAX_BOOTSTRAP_TIMES)) = true) := fun h => hns (hcond.mp h)
    constructor
    · intro hempty
      unfold DhtFriend.send_nodes_req_random
      rw [if_neg hc]
      simp [hempty]
    · intro hne
      unfold DhtFriend.send_nodes_req_random
      rw [if_neg hc]
      dsimp only
      rw [if_pos ((bool_not_isEmpty_iff _).mpr hne)]

/-- Witness for C7 at a concrete friend: not throttled (no previous discovery
query), pool of one good node, so one query is sent and the counter and
timestamp are updated. -/
theorem discovery_throttle_contract_witness :
    DhtFriend.send_nodes_req_random 0 5 3
      { pk := (0 : Nat)
        close_nodes := [{ pk := (1 : Nat), saddr := .v4 ⟨⟨127, 0, 0, 1⟩, 33445⟩
                          last_resp_time := some 0, last_ping_req_time := none }]
        last_nodes_req_time := none
        bootstrap_times := 0
        bootstrap_nodes := [] } =
      ({ pk := (0 : Nat)
         close_nodes := [{ pk := (1 : Nat), saddr := .v4 ⟨⟨127, 0, 0, 1⟩, 33445⟩
                           last_resp_time := some 0, last_ping_req_time := none }]
         last_nodes_req_time := some 0
         bootstrap_times := 1
         bootstrap_nodes := [] },
       [{ pk := (1 : Nat), saddr := .v4 ⟨⟨127, 0, 0, 1⟩, 33445⟩ }]) := by
  have h := (discovery_throttle_contract 0 5 3
    { pk := (0 : Nat)
      close_nodes := [{ pk := (1 : Nat), saddr := .v4 ⟨⟨127, 0, 0, 1⟩, 33445⟩
                        last_resp_time := some 0, last_ping_req_time := none }]
      last_nodes_req_time := none
      bootstrap_times := 0
      bootstrap_nodes := [] }).2 (by simp) |>.2 (by decide)
  rw [h]
  decide

/-- Helper: on in-range draws the two-draw selection reduces to plain
subtraction. -/
theorem selectRandomIndex_small (k i j : Nat) (hik : i < k) (hj : j < i + 1) :
    DhtFriend.selectRandomIndex k i j = if i ≠ 0 then i - j else i := by
  unfold DhtFriend.selectRandomIndex
  rw [Nat.mod_eq_of_lt hik]
  dsimp only
  rw [Nat.mod_eq_of_lt hj]

/-- Helper: for each first draw `i < k` exactly one second draw yields
selected index 0, namely `j = i`. -/
theorem select_zero_card (k i : Nat) (hik : i < k) :
    ((Finset.range (i + 1)).filter fun j => DhtFriend.selectRandomIndex k i j = 0).card = 1 := by
  have hset : ((Finset.range (i + 1)).filter fun j => DhtFriend.selectRandomIndex k i j = 0) =
      {i} := by
    ext j
    simp only [Finset.mem_filter, Finset.mem_range, Finset.mem_singleton]
    constructor
    · rintro ⟨hj, hsel⟩
      rw [selectRandomIndex_small k i j hik hj] at hsel
      by_cases hi : i = 0
      · omega
      · simp only [hi, if_true, ne_eq, not_false_iff, if_pos] at hsel
        omega
    · intro hj
      refine ⟨by omega, ?_⟩
      rw [hj, selectRandomIndex_small k i i hik (Nat.lt_succ_self i)]
      by_cases hi : i = 0 <;> simp [hi]
  rw [hset, Finset.card_singleton]

/-- Helper: the probability of selecting index 0 is the `k`-th harmonic
number divided by `k`. -/
theorem probSelectEq_zero (k : Nat) :
    probSelectEq k 0 = ((Finset.range k).sum fun i => (1 : ℚ) / (i + 1)) / k := by
  unfold probSelectEq
  congr 1
  refine Finset.sum_congr rfl fun i hi => ?_
  rw [select_zero_card k i (Finset.mem_range.mp hi)]
  norm_num

/-- C6: the selected index of the weighted random exploration is the first
uniform draw `i = r1 % k` minus, when `i` is nonzero, a second draw
`r2 % (i + 1)`; it always lies in `[0, k)`, and under the construction's
distribution index 0 is selected with probability at least `1/k`, strictly
more than `1/k` once `k > 1`. -/
theorem weighted_selection_bias (k r1 r2 : Nat) (hk : 0 < k) :
    DhtFriend.selectRandomIndex k r1 r2 < k ∧
    DhtFriend.selectRandomIndex k r1 r2 =
      (if r1 % k ≠ 0 then r1 % k - r2 % (r1 % k + 1) else r1 % k) ∧
    (1 : ℚ) / k ≤ probSelectEq k 0 ∧
    (1 < k → (1 : ℚ) / k < probSelectEq k 0) := by
  have hkQ : (0 : ℚ) < k := by exact_mod_cast hk
  have hsum1 : (1 : ℚ) ≤ (Finset.range k).sum fun i => (1 : ℚ) / (i + 1) := by
    have h0 : (0 : ℕ) ∈ Finset.range k := Finset.mem_range.mpr hk
    have := Finset.single_le_sum (f := fun i : ℕ => (1 : ℚ) / (i + 1))
      (fun i _ => by positivity) h0
    simpa using this
  refine ⟨?_, ?_, ?_, ?_⟩
  · unfold DhtFriend.selectRandomIndex
    have hmod : r1 % k < k := Nat.mod_lt _ hk
    by_cases h : r1 % k = 0
    · simp [h]
      omega
    · simp only [h, ne_eq, not_false_iff, if_pos]
      omega
  · unfold DhtFriend.selectRandomIndex
    rfl
  · rw [probSelectEq_zero]
    exact (div_le_div_iff_of_pos_right hkQ).mpr hsum1
  · intro hk1
    have h01 : ({0, 1} : Finset ℕ) ⊆ Finset.range k := by
      intro x hx
      simp only [Finset.mem_insert, Finset.mem_singleton] at hx
      rcases hx with rfl | rfl <;> simp [Finset.mem_range] <;> omega
    have hsub : (({0, 1} : Finset ℕ).sum fun i : ℕ => (1 : ℚ) / (i + 1)) ≤
        (Finset.range k).sum fun i => (1 : ℚ) / (i + 1) :=
      Finset.sum_le_sum_of_subset_of_nonneg h01 (fun i _ _ => by positivity)
    have hpair : (({0, 1} : Finset ℕ).sum fun i : ℕ => (1 : ℚ) / (i + 1)) = 3 / 2 := by
      rw [Finset.sum_pair (by omega : (0 : ℕ) ≠ 1)]
      norm_num
    rw [probSelectEq_zero]
    refine (div_lt_div_iff_of_pos_right hkQ).mpr ?_
    rw [hpair] at hsub
    linarith

/-- Witness for C6 at concrete draws and pool size: the two-draw selection on
a pool of 2 stays in range, and index 0 is strictly favoured over uniform. -/
theorem weighted_selection_bias_witness :
    DhtFriend.selectRandomIndex 2 1 0 < 2 ∧ (1 : ℚ) / 2 < probSelectEq 2 0 :=
  ⟨(weighted_selection_bias 2 1 0 (by decide)).1,
   (weighted_selection_bias 2 1 0 (by decide)).2.2.2 (by decide)⟩

/-- C10: `Codec::decode` removes bytes from the buffer only when it returns a
successfully decoded packet, and then it removes exactly the consumed
encrypted-packet prefix; on incomplete input (`Ok(None)`) and on every
`DecodeError` the buffer is left unchanged.  Stated for arbitrary behaviours
of the three external collaborators. -/
theorem codec_decode_buffer_discipline {P : Type}
    (encFromBytes : List Nat → IResult EncryptedPacket)
    (decrypt : List Nat → Option (List Nat))
    (packetFromBytes : List Nat → IResult P)
    (buf : List Nat) :
    ((Codec.decode encFromBytes decrypt packetFromBytes buf).1 = .ok none →
      (Codec.decode encFromBytes decrypt packetFromBytes buf).2 = buf) ∧
    (∀ e, (Codec.decode encFromBytes decrypt packetFromBytes buf).1 = .error e →
      (Codec.decode encFromBytes decrypt packetFromBytes buf).2 = buf) ∧
    (∀ p, (Codec.decode encFromBytes decrypt packetFromBytes buf).1 = .ok (some p) →
      ∃ i ep, encFromBytes buf = .done i ep ∧
        (Codec.decode encFromBytes decrypt packetFromBytes buf).2 =
          buf.drop (buf.length - i.length)) := by
  unfold Codec.decode
  cases henc : encFromBytes buf with
  | incomplete => simp
  | error => simp
  | done i ep =>
    dsimp only
    cases hdec : decrypt ep.payload with
    | none => simp
    | some d =>
      dsimp only
      cases hpkt : packetFromBytes d with
      | incomplete => simp
      | error => simp
      | done j p =>
        refine ⟨by simp, by simp, fun q hq => ⟨i, ep, rfl, by simp⟩⟩

/-- Witness for C10 with concrete collaborator behaviours: when decryption
fails the buffer `[1, 2, 3]` is returned untouched. -/
theorem codec_decode_buffer_discipline_witness :
    (Codec.decode (P := Nat)
      (fun b => IResult.done (b.drop 2) ⟨b.take 2⟩)
      (fun _ => none)
      (fun _ => IResult.done [] 7)
      [1, 2, 3]).2 = [1, 2, 3] :=
  (codec_decode_buffer_discipline
    (fun b => IResult.done (b.drop 2) ⟨b.take 2⟩)
    (fun _ => none)
    (fun _ => IResult.done [] 7)
    [1, 2, 3]).2.1 DecodeError.decryptError (by rfl)
